import Mathlib

/-!
Shallow embedding of `src/mintpy/load_gbis.py` (function `gbis_mat2hdf5` and `main`).

Modelling conventions:
* machine floats are modelled as real numbers (`ℝ`); the single claim that is
  specifically about IEEE-754 special values is settled against a separate
  refinement (`NpFloat`) of the azimuth expression;
* a numpy 2-D array is a `List (List _)` in row-major order; the all-NaN
  initial grids (`np.zeros(...) * np.nan`) and their NaN cells are modelled
  with `Option ℝ`, `none` standing for NaN;
* a Python `dict` is an association list with in-place overwrite on key
  collision (`dictInsert`), which is exactly CPython's insertion-order
  semantics for string-keyed dicts;
* Python exceptions are `Except String`; the external collaborators
  (scipy loader, pyproj geodesic, HDF5 writer, matplotlib) are modelled as:
  the loader's output appears as the already-parsed input structure, the
  forward geodesic `pyproj.Geod(ellps=WGS84).fwd` is an abstract function
  parameter `fwd : ℝ → ℝ → ℝ → ℝ → ℝ × ℝ` (lon, lat, azimuth, distance ↦
  destination lon, lat), the writer and plotting are outside the returned
  value.
-/

/-- Scalar metadata value: a Python string or number stored in the metadata dict. -/
inductive MetaVal where
  | str : String → MetaVal
  | num : ℝ → MetaVal

/-- Python dict lookup `d[k]` on an insertion-ordered association list. -/
def dictGet {α : Type} : List (String × α) → String → Option α
  | [], _ => none
  | p :: ps, k => if p.1 = k then some p.2 else dictGet ps k

/-- Python dict assignment `d[k] = v`: overwrite in place if the key exists,
append at the end otherwise. -/
def dictInsert {α : Type} : List (String × α) → String → α → List (String × α)
  | [], k, v => [(k, v)]
  | p :: ps, k, v => if p.1 = k then (k, v) :: ps else p :: dictInsert ps k v

/-- Python `s.replace(' ', '_')` for the single-character pattern used at
line 55 of the script. -/
def normKey (s : String) : String :=
  String.mk (s.data.map (fun c => if c = ' ' then '_' else c))

/-- Helper for `splitTokens`: walks the characters carrying the (reversed)
token under construction, emitting a token at each space run and at the end. -/
def splitTokensAux : List Char → List Char → List (List Char)
  | [], cur => if cur = [] then [] else [cur.reverse]
  | c :: cs, cur =>
    if c = ' ' then
      if cur = [] then splitTokensAux cs []
      else cur.reverse :: splitTokensAux cs []
    else splitTokensAux cs (c :: cur)

/-- Python `s.split()` (whitespace is a space here): the list of maximal
non-space runs, with no empty entries.  Used at line 66,
`modelName = parName[0].split()[0]`; indexing `[0]` into this list raises
`IndexError` when the name is empty or all spaces. -/
def splitTokens (s : String) : List String :=
  (splitTokensAux s.data []).map String.mk

/-- `np.count_nonzero`-style count of the non-zero entries of the 2-D mask,
in row-major order (numpy boolean indexing `mask != 0` selects these cells). -/
def countNonzero (mask : List (List Int)) : Nat :=
  (mask.flatten.filter (fun x => x != 0)).length

/-- Row-major scatter of a value list into one flat run of mask cells:
non-zero mask cells consume the next value, zero cells stay NaN (`none`).
This is the semantics of `data[mask!=0] = vals` restricted to one row
(and, applied to the flattened mask, to the whole array). -/
def scatterRow : List Int → List ℝ → List (Option ℝ)
  | [], _ => []
  | x :: xs, vals =>
    if x = 0 then none :: scatterRow xs vals
    else
      match vals with
      | [] => none :: scatterRow xs []
      | v :: vs => some v :: scatterRow xs vs

/-- Values left over after `scatterRow` has consumed one run of mask cells. -/
def restVals : List Int → List ℝ → List ℝ
  | [], vals => vals
  | x :: xs, vals =>
    if x = 0 then restVals xs vals
    else
      match vals with
      | [] => []
      | v :: vs => restVals xs vs

/-- Row-major scatter over the whole 2-D mask. -/
def scatter : List (List Int) → List ℝ → List (List (Option ℝ))
  | [], _ => []
  | row :: rows, vals => scatterRow row vals :: scatter rows (restVals row vals)

/-- Flat index (into the row-major flattening of the mask) of the k-th
non-zero mask entry, when it exists. -/
def nthNonzeroIdx : List Int → Nat → Option Nat
  | [], _ => none
  | x :: xs, k =>
    if x = 0 then (nthNonzeroIdx xs k).map (fun j => j + 1)
    else
      match k with
      | 0 => some 0
      | Nat.succ k2 => (nthNonzeroIdx xs k2).map (fun j => j + 1)

/-- numpy boolean-mask assignment `grid[mask != 0] = vals` on an all-NaN grid
(lines 91-94).  numpy broadcasts the right-hand side to the number of selected
cells: a sequence of exactly matching length is scattered element-wise, a
length-one sequence is repeated for every selected cell, anything else raises
`ValueError: could not broadcast ...`. -/
def npBoolAssign (mask : List (List Int)) (vals : List ℝ) :
    Except String (List (List (Option ℝ))) :=
  if vals.length = countNonzero mask then Except.ok (scatter mask vals)
  else if vals.length = 1 then
    Except.ok (scatter mask (List.replicate (countNonzero mask) (vals.headD 0)))
  else Except.error "could not broadcast input array"

/-- Lines 89-94: build the three dense grids `data`, `model`, `residual` from
the mask and the three sparse value vectors. -/
def gridReconstruct (mask : List (List Int)) (dv mv rv : List ℝ) :
    Except String (List (List (Option ℝ)) × List (List (Option ℝ)) × List (List (Option ℝ))) :=
  match npBoolAssign mask dv with
  | Except.error e => Except.error e
  | Except.ok data =>
    match npBoolAssign mask mv with
    | Except.error e => Except.error e
    | Except.ok model =>
      match npBoolAssign mask rv with
      | Except.error e => Except.error e
      | Except.ok residual => Except.ok (data, model, residual)

/-- The reconstruction contract of one grid: same shape as the mask, the k-th
non-zero mask position (row-major) holds the k-th value, zero-mask positions
hold NaN. -/
def gridOK (mask : List (List Int)) (vals : List ℝ) (g : List (List (Option ℝ))) : Prop :=
  g.length = mask.length
  ∧ (∀ i : Nat, (g[i]?).map List.length = (mask[i]?).map List.length)
  ∧ (∀ (k j : Nat) (v : ℝ), nthNonzeroIdx mask.flatten k = some j → vals[k]? = some v →
        g.flatten[j]? = some (some v))
  ∧ (∀ j : Nat, mask.flatten[j]? = some 0 → g.flatten[j]? = some none)

/-- Whether an `Except` computation succeeded. -/
def exceptIsOk {ε α : Type} : Except ε α → Bool
  | Except.ok _ => true
  | Except.error _ => false

/-- One entry of `mat['insar']` / `mat['insarPlot']` together with the fields
the loop reads from the per-image data file: display name, the three sparse
value vectors, the optional `minHeight`, the `Mask` grid and the `Metadata`
dict (already stripped of the `_fieldnames` bookkeeping key, line 98). -/
structure InsarPlot where
  name : String
  dataVals : List ℝ
  modelVals : List ℝ
  residualVals : List ℝ
  minHeight : Option ℝ
  mask : List (List Int)
  fileMeta : List (String × MetaVal)

/-- What the script hands to `writefile.write` for one image: the output file
path and the three grids plus the merged metadata dict. -/
structure OutputRecord where
  outFile : String
  data : List (List (Option ℝ))
  model : List (List (Option ℝ))
  residual : List (List (Option ℝ))
  meta : List (String × MetaVal)

/-- The parsed content of the GBIS `.mat` file that `gbis_mat2hdf5` consumes:
the output directory (`os.path.dirname(mat_file)`), `invResults.optimalmodel`,
`invResults.model.parName`, `geo.referencePoint`, and the per-image records. -/
structure GbisInput where
  outDir : String
  optimalModel : List ℝ
  parName : List String
  refLon : ℝ
  refLat : ℝ
  plots : List InsarPlot

/-- Lines 53-56: `mDict[parName[i].replace(' ', '_')] = parValue[i]` for
`i in range(len(parValue))`; a `parName` shorter than `parValue` raises
`IndexError` at `parName[i]`. -/
def buildMDict (parName : List String) (parValue : List ℝ) :
    Except String (List (String × ℝ)) :=
  if parValue.length ≤ parName.length then
    Except.ok (((parName.take parValue.length).zip parValue).foldl
      (fun d p => dictInsert d (normKey p.1) p.2) [])
  else Except.error "list index out of range"

/-- Line 63: the azimuth the script feeds to `geod.fwd`,
`np.arctan(mX/mY) * 180 / np.pi` — a single-argument arctangent. -/
noncomputable def azimuthCode (mX mY : ℝ) : ℝ :=
  Real.arctan (mX / mY) * 180 / Real.pi

open Classical in
/-- Modelled from the spec: the quadrant-aware two-argument arctangent
(`atan2`) that the spec requires for the azimuth; given the direction vector
(y, x) it resolves all four quadrants. -/
noncomputable def atanTwo (y x : ℝ) : ℝ :=
  if 0 < x then Real.arctan (y / x)
  else if x < 0 ∧ 0 ≤ y then Real.arctan (y / x) + Real.pi
  else if x < 0 ∧ y < 0 then Real.arctan (y / x) - Real.pi
  else if x = 0 ∧ 0 < y then Real.pi / 2
  else if x = 0 ∧ y < 0 then -(Real.pi / 2)
  else 0

/-- Modelled from the spec: the azimuth in degrees as the spec prescribes it,
a quadrant-aware two-argument arctangent of the (mX, mY) direction vector. -/
noncomputable def azimuthSpec (mX mY : ℝ) : ℝ :=
  atanTwo mX mY * 180 / Real.pi

/-- Lines 53-70: the global parameter dict `mDict` — every normalized
parameter name bound to its optimal value, then the two derived keys
`<modelName>_latitude` / `<modelName>_longitude` obtained by feeding the
azimuth (`azimuthCode`) and the distance `sqrt(mX^2 + mY^2)` to the external
forward geodesic `fwd`.  `mX, mY = parValue[0:2]` raises `ValueError` when
fewer than two optimal-model values exist, and `parName[0].split()[0]`
raises `IndexError` when the first parameter name holds no token. -/
noncomputable def buildGlobalDict (fwd : ℝ → ℝ → ℝ → ℝ → ℝ × ℝ)
    (refLon refLat : ℝ) (parName : List String) (parValue : List ℝ) :
    Except String (List (String × ℝ)) :=
  match buildMDict parName parValue with
  | Except.error e => Except.error e
  | Except.ok mDict =>
    match parValue, parName with
    | mX :: mY :: _, pn0 :: _ =>
      let res := fwd refLon refLat (azimuthCode mX mY) (Real.sqrt (mX ^ 2 + mY ^ 2))
      match splitTokens pn0 with
      | [] => Except.error "list index out of range"
      | modelName :: _ =>
        Except.ok (dictInsert (dictInsert mDict (modelName ++ "_latitude") res.2)
          (modelName ++ "_longitude") res.1)
    | _ :: _ :: _, [] => Except.error "list index out of range"
    | _, _ => Except.error "not enough values to unpack"

/-- Lines 96-105: the merged metadata dict for one image — file metadata,
then the fixed tags `UNIT = m`, `FILE_TYPE = displacement`,
`PROCESSOR = isce`, then the optional `MODEL_MIN_HEIGHT`, then every entry
of the global parameter dict; each later stage overwrites earlier ones on
key collision. -/
def mergeMeta (fileMeta : List (String × MetaVal)) (minHeight : Option ℝ)
    (mDict : List (String × ℝ)) : List (String × MetaVal) :=
  let m1 := dictInsert fileMeta "UNIT" (MetaVal.str "m")
  let m2 := dictInsert m1 "FILE_TYPE" (MetaVal.str "displacement")
  let m3 := dictInsert m2 "PROCESSOR" (MetaVal.str "isce")
  let m4 := match minHeight with
    | some h => dictInsert m3 "MODEL_MIN_HEIGHT" (MetaVal.num h)
    | none => m3
  mDict.foldl (fun d p => dictInsert d p.1 (MetaVal.num p.2)) m4

/-- The body of the per-image loop (lines 80-113) for one record: name the
output file `<outDir>/<name>.h5`, reconstruct the three grids, merge the
metadata. -/
def processPlot (outDir : String) (mDict : List (String × ℝ)) (p : InsarPlot) :
    Except String OutputRecord :=
  match gridReconstruct p.mask p.dataVals p.modelVals p.residualVals with
  | Except.error e => Except.error e
  | Except.ok g =>
    Except.ok { outFile := outDir ++ "/" ++ p.name ++ ".h5"
              , data := g.1, model := g.2.1, residual := g.2.2
              , meta := mergeMeta p.fileMeta p.minHeight mDict }

/-- The per-image loop in input order; the first exception aborts the rest
of the batch (fail-fast, as uncaught Python exceptions do). -/
def processAll (outDir : String) (mDict : List (String × ℝ)) :
    List InsarPlot → Except String (List OutputRecord)
  | [] => Except.ok []
  | p :: ps =>
    match processPlot outDir mDict p with
    | Except.error e => Except.error e
    | Except.ok r =>
      match processAll outDir mDict ps with
      | Except.error e => Except.error e
      | Except.ok rs => Except.ok (r :: rs)

/-- `gbis_mat2hdf5(mat_file, display)`: build the global parameter dict, then
process every image record in order.  The `display` flag only drives the
external matplotlib side effect and does not enter the returned value. -/
noncomputable def gbis_mat2hdf5 (fwd : ℝ → ℝ → ℝ → ℝ → ℝ × ℝ)
    (input : GbisInput) (display : Bool) : Except String (List OutputRecord) :=
  match buildGlobalDict fwd input.refLon input.refLat input.parName input.optimalModel with
  | Except.error e => Except.error e
  | Except.ok mDict => processAll input.outDir mDict input.plots

/-- `main`: parses (file, --output, --nodisplay) and calls
`gbis_mat2hdf5(inps.file, display=inps.disp_fig)`; the parsed `outfile`
option is never used. -/
noncomputable def mainRun (fwd : ℝ → ℝ → ℝ → ℝ → ℝ × ℝ) (input : GbisInput)
    (outfile : Option String) (display : Bool) : Except String (List OutputRecord) :=
  gbis_mat2hdf5 fwd input display

/-- An IEEE-754-style value as numpy produces it: a finite real, a signed
infinity, or NaN. -/
inductive NpFloat where
  | finite : ℝ → NpFloat
  | posInf : NpFloat
  | negInf : NpFloat
  | nan : NpFloat

/-- Whether an `NpFloat` is a finite value. -/
def NpFloat.isFinite : NpFloat → Bool
  | NpFloat.finite _ => true
  | _ => false

open Classical in
/-- IEEE-754 division of two finite values, as numpy performs `mX/mY`
(line 63): division by zero yields a signed infinity (or NaN for 0/0) and
raises no exception. -/
noncomputable def npDivFin (a b : ℝ) : NpFloat :=
  if b = 0 then (if 0 < a then NpFloat.posInf else if a < 0 then NpFloat.negInf else NpFloat.nan)
  else NpFloat.finite (a / b)

/-- `np.arctan` on an IEEE value: `arctan(±inf) = ±π/2`, `arctan(nan) = nan`. -/
noncomputable def npArctan : NpFloat → NpFloat
  | NpFloat.finite x => NpFloat.finite (Real.arctan x)
  | NpFloat.posInf => NpFloat.finite (Real.pi / 2)
  | NpFloat.negInf => NpFloat.finite (-(Real.pi / 2))
  | NpFloat.nan => NpFloat.nan

/-- The `* 180 / np.pi` radian-to-degree scaling on an IEEE value. -/
noncomputable def npScaleDeg : NpFloat → NpFloat
  | NpFloat.finite x => NpFloat.finite (x * 180 / Real.pi)
  | NpFloat.posInf => NpFloat.posInf
  | NpFloat.negInf => NpFloat.negInf
  | NpFloat.nan => NpFloat.nan

/-- Line 63 under IEEE-754 semantics: `np.arctan(mX/mY) * 180 / np.pi`
for finite inputs `mX`, `mY`. -/
noncomputable def azimuthNp (mX mY : ℝ) : NpFloat :=
  npScaleDeg (npArctan (npDivFin mX mY))

/-! ### Dictionary lemmas -/

theorem dictGet_insert_self {α : Type} (d : List (String × α)) (k : String) (v : α) :
    dictGet (dictInsert d k v) k = some v := by
  induction d with
  | nil => simp [dictInsert, dictGet]
  | cons p ps ih =>
    by_cases h : p.1 = k
    · simp [dictInsert, h, dictGet]
    · simp [dictInsert, h, dictGet, ih]

theorem dictGet_insert_ne {α : Type} (d : List (String × α)) (k1 k : String) (v : α)
    (h : k1 ≠ k) : dictGet (dictInsert d k1 v) k = dictGet d k := by
  induction d with
  | nil => simp [dictInsert, dictGet, h]
  | cons p ps ih =>
    by_cases hp : p.1 = k1
    · simp [dictInsert, hp, dictGet, h]
    · by_cases hk : p.1 = k
      · simp [dictInsert, hp, dictGet, hk, Ne.symm h]
      · simp [dictInsert, hp, dictGet, hk, ih]

theorem dictGet_insert_isSome {α : Type} (d : List (String × α)) (k1 k : String) (v : α)
    (h : (dictGet d k).isSome) : (dictGet (dictInsert d k1 v) k).isSome := by
  by_cases hk : k1 = k
  · subst hk; simp [dictGet_insert_self]
  · rw [dictGet_insert_ne d k1 k v hk]; exact h

theorem numFold_get_not_mem (ps : List (String × ℝ)) (m : List (String × MetaVal))
    (k : String) (h : ∀ p ∈ ps, p.1 ≠ k) :
    dictGet (ps.foldl (fun d p => dictInsert d p.1 (MetaVal.num p.2)) m) k = dictGet m k := by
  induction ps generalizing m with
  | nil => rfl
  | cons p ps ih =>
    simp only [List.foldl_cons]
    rw [ih _ (fun q hq => h q (List.mem_cons_of_mem _ hq)),
        dictGet_insert_ne _ _ _ _ (h p (List.mem_cons_self _ _))]

theorem numFold_get_mem (ps : List (String × ℝ)) (k : String) (v : ℝ) :
    ∀ m : List (String × MetaVal), (ps.map Prod.fst).Nodup → dictGet ps k = some v →
    dictGet (ps.foldl (fun d p => dictInsert d p.1 (MetaVal.num p.2)) m) k
      = some (MetaVal.num v) := by
  induction ps with
  | nil => intro m _ hget; simp [dictGet] at hget
  | cons p ps ih =>
    intro m hnd hget
    rw [List.map_cons] at hnd
    obtain ⟨hnotin, hndtail⟩ := List.nodup_cons.mp hnd
    simp only [List.foldl_cons]
    by_cases hp : p.1 = k
    · rw [dictGet, if_pos hp] at hget
      injection hget with hv
      have hk : ∀ q ∈ ps, q.1 ≠ k := by
        intro q hq hqk
        exact hnotin ((hqk.trans hp.symm) ▸ List.mem_map_of_mem Prod.fst hq)
      rw [numFold_get_not_mem ps _ k hk, hp, dictGet_insert_self, hv]
    · rw [dictGet, if_neg hp] at hget
      exact ih _ hndtail hget

/-! ### Scatter lemmas -/

theorem restVals_nil (m : List Int) : restVals m [] = [] := by
  induction m with
  | nil => rfl
  | cons x xs ih =>
    by_cases hx : x = 0
    · simp [restVals, hx, ih]
    · simp [restVals, hx]

theorem scatterRow_length (m : List Int) (vals : List ℝ) :
    (scatterRow m vals).length = m.length := by
  induction m generalizing vals with
  | nil => rfl
  | cons x xs ih =>
    by_cases hx : x = 0
    · simp [scatterRow, hx, ih]
    · cases vals with
      | nil => simp [scatterRow, hx, ih]
      | cons v vs => simp [scatterRow, hx, ih]

theorem scatterRow_append (a b : List Int) (vals : List ℝ) :
    scatterRow (a ++ b) vals = scatterRow a vals ++ scatterRow b (restVals a vals) := by
  induction a generalizing vals with
  | nil => rfl
  | cons x xs ih =>
    by_cases hx : x = 0
    · simp [scatterRow, restVals, hx, ih]
    · cases vals with
      | nil => simp [scatterRow, restVals, hx, ih, restVals_nil]
      | cons v vs => simp [scatterRow, restVals, hx, ih]

theorem scatter_flatten (rows : List (List Int)) (vals : List ℝ) :
    (scatter rows vals).flatten = scatterRow rows.flatten vals := by
  induction rows generalizing vals with
  | nil => rfl
  | cons row rows ih => simp [scatter, List.flatten_cons, ih, scatterRow_append]

theorem nthNonzeroIdx_zero_mask (x : Int) (xs : List Int) (k : Nat) (hx : x = 0) :
    nthNonzeroIdx (x :: xs) k = (nthNonzeroIdx xs k).map (fun j => j + 1) := by
  rw [nthNonzeroIdx.eq_def]
  simp [hx]

theorem nthNonzeroIdx_nz_zero (x : Int) (xs : List Int) (hx : ¬x = 0) :
    nthNonzeroIdx (x :: xs) 0 = some 0 := by
  rw [nthNonzeroIdx.eq_def]
  simp [hx]

theorem nthNonzeroIdx_nz_succ (x : Int) (xs : List Int) (k2 : Nat) (hx : ¬x = 0) :
    nthNonzeroIdx (x :: xs) (k2 + 1) = (nthNonzeroIdx xs k2).map (fun j => j + 1) := by
  rw [nthNonzeroIdx.eq_def]
  simp [hx]

theorem scatterRow_nth (m : List Int) (vals : List ℝ) (k j : Nat) (v : ℝ)
    (hj : nthNonzeroIdx m k = some j) (hv : vals[k]? = some v) :
    (scatterRow m vals)[j]? = some (some v) := by
  induction m generalizing vals k j with
  | nil => simp [nthNonzeroIdx] at hj
  | cons x xs ih =>
    by_cases hx : x = 0
    · rw [nthNonzeroIdx_zero_mask x xs k hx] at hj
      rcases Option.map_eq_some'.mp hj with ⟨j2, hj2, hjeq⟩
      subst hjeq
      simp only [scatterRow, if_pos hx, List.getElem?_cons_succ]
      exact ih vals k j2 hj2 hv
    · cases k with
      | zero =>
        rw [nthNonzeroIdx_nz_zero x xs hx] at hj
        injection hj with h0
        subst h0
        cases vals with
        | nil => simp at hv
        | cons v0 vs =>
          have hv0 : v0 = v := by simpa using hv
          simp [scatterRow, hx, hv0]
      | succ k2 =>
        rw [nthNonzeroIdx_nz_succ x xs k2 hx] at hj
        rcases Option.map_eq_some'.mp hj with ⟨j2, hj2, hjeq⟩
        subst hjeq
        cases vals with
        | nil => simp at hv
        | cons v0 vs =>
          simp only [scatterRow, if_neg hx, List.getElem?_cons_succ]
          exact ih vs k2 j2 hj2 (by simpa using hv)

theorem scatterRow_zero (m : List Int) (vals : List ℝ) (j : Nat)
    (hj : m[j]? = some 0) : (scatterRow m vals)[j]? = some none := by
  induction m generalizing vals j with
  | nil => simp at hj
  | cons x xs ih =>
    cases j with
    | zero =>
      have hx : x = 0 := by simpa using hj
      simp [scatterRow, hx]
    | succ j2 =>
      have hj2 : xs[j2]? = some 0 := by simpa using hj
      by_cases hx : x = 0
      · simp only [scatterRow, if_pos hx, List.getElem?_cons_succ]
        exact ih _ _ hj2
      · cases vals with
        | nil =>
          simp only [scatterRow, if_neg hx, List.getElem?_cons_succ]
          exact ih _ _ hj2
        | cons v vs =>
          simp only [scatterRow, if_neg hx, List.getElem?_cons_succ]
          exact ih _ _ hj2

theorem scatter_length (rows : List (List Int)) (vals : List ℝ) :
    (scatter rows vals).length = rows.length := by
  induction rows generalizing vals with
  | nil => rfl
  | cons row rows ih => simp [scatter, ih]

theorem scatter_row_lengths (rows : List (List Int)) (vals : List ℝ) (i : Nat) :
    ((scatter rows vals)[i]?).map List.length = (rows[i]?).map List.length := by
  induction rows generalizing vals i with
  | nil => simp [scatter]
  | cons row rows ih =>
    cases i with
    | zero => simp [scatter, scatterRow_length]
    | succ i2 =>
      simp only [scatter, List.getElem?_cons_succ]
      exact ih _ _

theorem scatter_gridOK (mask : List (List Int)) (vals : List ℝ) :
    gridOK mask vals (scatter mask vals) :=
  ⟨scatter_length mask vals, scatter_row_lengths mask vals,
   fun _ _ _ hj hv => by rw [scatter_flatten]; exact scatterRow_nth _ _ _ _ _ hj hv,
   fun _ hj => by rw [scatter_flatten]; exact scatterRow_zero _ _ _ hj⟩

theorem npBoolAssign_eq_len (mask : List (List Int)) (vals : List ℝ)
    (h : vals.length = countNonzero mask) :
    npBoolAssign mask vals = Except.ok (scatter mask vals) := by
  simp [npBoolAssign, h]

/-! ### Pipeline lemmas -/

theorem processAll_outFiles (outDir : String) (mDict : List (String × ℝ))
    (plots : List InsarPlot) (recs : List OutputRecord)
    (h : processAll outDir mDict plots = Except.ok recs) :
    recs.map (fun r => r.outFile) = plots.map (fun p => outDir ++ "/" ++ p.name ++ ".h5") := by
  induction plots generalizing recs with
  | nil =>
    rw [processAll] at h
    injection h with h2
    subst h2
    rfl
  | cons p ps ih =>
    rw [processAll] at h
    cases hp : processPlot outDir mDict p with
    | error e => rw [hp] at h; exact Except.noConfusion h
    | ok r =>
      rw [hp] at h
      cases hps : processAll outDir mDict ps with
      | error e => rw [hps] at h; exact Except.noConfusion h
      | ok rs =>
        rw [hps] at h
        injection h with h2
        subst h2
        have hr : r.outFile = outDir ++ "/" ++ p.name ++ ".h5" := by
          unfold processPlot at hp
          cases hg : gridReconstruct p.mask p.dataVals p.modelVals p.residualVals with
          | error e => rw [hg] at hp; exact Except.noConfusion hp
          | ok g =>
            rw [hg] at hp
            injection hp with h3
            subst h3
            rfl
        simp [hr, ih rs hps]

theorem buildGlobalDict_short (fwd : ℝ → ℝ → ℝ → ℝ → ℝ × ℝ) (rlo rla : ℝ)
    (pn : List String) (pv : List ℝ) (h : pv.length < 2) :
    exceptIsOk (buildGlobalDict fwd rlo rla pn pv) = false := by
  unfold buildGlobalDict
  match pv, h with
  | [], _ =>
    cases hb : buildMDict pn [] with
    | error e => simp [exceptIsOk]
    | ok mD => simp [exceptIsOk]
  | [x], _ =>
    cases hb : buildMDict pn [x] with
    | error e => simp [exceptIsOk]
    | ok mD => simp [exceptIsOk]

/-! ### Claims -/

/-- Claim C1: the spec asserts the azimuth fed to the forward geodesic is a
quadrant-aware two-argument arctangent of (mx, my).  The code (line 63)
computes `arctan(mX/mY)` instead, which collapses opposite quadrants: the
direction (-1, -1) gets the same azimuth as (1, 1), while the two-argument
arctangent the spec prescribes distinguishes them. -/
theorem C1_azimuth_single_arctan :
    azimuthCode (-1) (-1) = azimuthCode 1 1 ∧ azimuthSpec 1 1 ≠ azimuthSpec (-1) (-1) := by
  constructor
  · unfold azimuthCode
    norm_num
  · unfold azimuthSpec atanTwo
    norm_num
    intro h
    have hπ : Real.pi ≠ 0 := Real.pi_ne_zero
    field_simp at h
    linarith [Real.pi_pos]

/-- Claim C2: with value sequences whose lengths equal the non-zero count of
the mask, the reconstruction succeeds and each produced grid has the mask's
shape, holds the k-th value of its sequence at the k-th non-zero mask
position in row-major order, and holds NaN at every zero-mask position. -/
theorem C2_grid_reconstruction (mask : List (List Int)) (dv mv rv : List ℝ)
    (hd : dv.length = countNonzero mask) (hm : mv.length = countNonzero mask)
    (hr : rv.length = countNonzero mask) :
    gridReconstruct mask dv mv rv
      = Except.ok (scatter mask dv, scatter mask mv, scatter mask rv)
    ∧ gridOK mask dv (scatter mask dv) ∧ gridOK mask mv (scatter mask mv)
    ∧ gridOK mask rv (scatter mask rv) := by
  refine ⟨?_, scatter_gridOK mask dv, scatter_gridOK mask mv, scatter_gridOK mask rv⟩
  simp only [gridReconstruct, npBoolAssign_eq_len mask dv hd, npBoolAssign_eq_len mask mv hm,
    npBoolAssign_eq_len mask rv hr]

/-- Witness for C2 at a concrete 2x2 mask with two non-zero cells. -/
theorem C2_grid_reconstruction_witness :
    gridReconstruct [[1, 0], [0, 1]] [10, 20] [30, 40] [50, 60]
      = Except.ok (scatter [[1, 0], [0, 1]] [10, 20], scatter [[1, 0], [0, 1]] [30, 40],
          scatter [[1, 0], [0, 1]] [50, 60])
    ∧ gridOK [[1, 0], [0, 1]] [10, 20] (scatter [[1, 0], [0, 1]] [10, 20])
    ∧ gridOK [[1, 0], [0, 1]] [30, 40] (scatter [[1, 0], [0, 1]] [30, 40])
    ∧ gridOK [[1, 0], [0, 1]] [50, 60] (scatter [[1, 0], [0, 1]] [50, 60]) :=
  C2_grid_reconstruction [[1, 0], [0, 1]] [10, 20] [30, 40] [50, 60]
    (by decide) (by decide) (by decide)

/-- Claim C3 (counterexample): the claim says the reconstruction fails exactly
when the value-sequence length differs from the non-zero count.  A length-one
sequence against a mask with two non-zero cells does not fail: numpy
broadcasts the single value to both cells. -/
theorem C3_counterexample :
    ([(5 : ℝ)].length ≠ countNonzero [[1, 1]])
    ∧ npBoolAssign [[1, 1]] [(5 : ℝ)] = Except.ok [[some 5, some 5]] := by
  constructor
  · decide
  · rfl

/-- Claim C3 (amended): the reconstruction of one grid fails if and only if
the value-sequence length differs from the non-zero mask count AND is not 1
(a length-one sequence is broadcast to every selected cell without error). -/
theorem C3_shape_mismatch_iff (mask : List (List Int)) (vals : List ℝ) :
    exceptIsOk (npBoolAssign mask vals) = false
      ↔ (vals.length ≠ countNonzero mask ∧ vals.length ≠ 1) := by
  unfold npBoolAssign
  split_ifs with h1 h2
  · simp [exceptIsOk, h1]
  · simp [exceptIsOk, h1, h2]
  · simp [exceptIsOk, h1, h2]

/-- Claim C4 (counterexample): the claim says a collision of normalized
parameter names fails with an error and writes nothing.  On a concrete input
with the colliding names (M x) and (M_x) the pipeline succeeds and writes
one output file. -/
theorem C4_counterexample :
    normKey "M x" = normKey "M_x"
    ∧ Except.map (fun recs => recs.map (fun r => r.outFile))
        (gbis_mat2hdf5 (fun lon lat _ _ => (lon, lat))
          { outDir := "d", optimalModel := [3, 4], parName := ["M x", "M_x"],
            refLon := 0, refLat := 0,
            plots := [{ name := "A", dataVals := [1], modelVals := [1], residualVals := [1],
                        minHeight := none, mask := [[1]], fileMeta := [] }] } true)
      = Except.ok ["d/A.h5"] :=
  ⟨rfl, rfl⟩

/-- Claim C4 (amended): two parameter names that normalize to the same
underscored key are silently collapsed into a single dict entry, the later
parameter's value winning; no error is raised. -/
theorem C4_collision_last_wins (a b : String) (va vb : ℝ) (h : normKey a = normKey b) :
    buildMDict [a, b] [va, vb] = Except.ok [(normKey b, vb)] := by
  show Except.ok (dictInsert (dictInsert [] (normKey a) va) (normKey b) vb)
      = Except.ok [(normKey b, vb)]
  rw [h]
  simp [dictInsert]

/-- Witness for C4 (amended) at the colliding names (M x) and (M_x). -/
theorem C4_collision_witness :
    buildMDict ["M x", "M_x"] [(1 : ℝ), 2] = Except.ok [(normKey "M_x", 2)] :=
  C4_collision_last_wins "M x" "M_x" 1 2 rfl

/-- Claim C5: with fewer than two optimal-model values, the conversion fails
(the unpacking `mX, mY = parValue[0:2]` raises; the spec's taxonomy names
this failure InsufficientParametersError). -/
theorem C5_insufficient_parameters (fwd : ℝ → ℝ → ℝ → ℝ → ℝ × ℝ) (input : GbisInput)
    (display : Bool) (h : input.optimalModel.length < 2) :
    exceptIsOk (gbis_mat2hdf5 fwd input display) = false := by
  unfold gbis_mat2hdf5
  have hb := buildGlobalDict_short fwd input.refLon input.refLat input.parName
    input.optimalModel h
  cases hg : buildGlobalDict fwd input.refLon input.refLat input.parName input.optimalModel with
  | error e => simp [exceptIsOk]
  | ok mD => rw [hg] at hb; simp [exceptIsOk] at hb

/-- Witness for C5 at an input holding a single optimal-model value. -/
theorem C5_insufficient_witness :
    exceptIsOk (gbis_mat2hdf5 (fun lon lat _ _ => (lon, lat))
      { outDir := "d", optimalModel := [3], parName := ["M d"], refLon := 0, refLat := 0,
        plots := [] } true) = false :=
  C5_insufficient_parameters _ _ _ (by decide)

/-- Claim C6: a key present in both the per-file metadata and the global
parameter dict resolves, in the merged metadata, to the global parameter's
value — the merge applies file metadata, fixed tags, optional minHeight,
then the global parameters, later stages overwriting earlier ones. -/
theorem C6_global_overrides_file (fileMeta : List (String × MetaVal)) (mh : Option ℝ)
    (mDict : List (String × ℝ)) (k : String) (v1 : MetaVal) (v2 : ℝ)
    (hnd : (mDict.map Prod.fst).Nodup)
    (h1 : dictGet fileMeta k = some v1)
    (h2 : dictGet mDict k = some v2) :
    dictGet (mergeMeta fileMeta mh mDict) k = some (MetaVal.num v2) := by
  unfold mergeMeta
  exact numFold_get_mem mDict k v2 _ hnd h2

/-- Witness for C6 at a key bound both in the file metadata and globally. -/
theorem C6_global_overrides_witness :
    dictGet (mergeMeta [("depth", MetaVal.str "9")] none [("depth", 7)]) "depth"
      = some (MetaVal.num 7) :=
  C6_global_overrides_file [("depth", MetaVal.str "9")] none [("depth", 7)] "depth"
    (MetaVal.str "9") 7 (by decide) rfl rfl

/-- Claim C7 (counterexample): the claim says the merged metadata carries a
unit tag with value "meters"; the code (line 99) stores the value "m". -/
theorem C7_counterexample :
    dictGet (mergeMeta [] none []) "UNIT" = some (MetaVal.str "m")
    ∧ some (MetaVal.str "m") ≠ some (MetaVal.str "meters") := by
  refine ⟨rfl, ?_⟩
  intro h
  injection h with h2
  injection h2 with h3
  exact absurd h3 (by decide)

/-- Claim C7 (amended): the merged metadata carries the fixed tags
UNIT = "m" (not "meters"), FILE_TYPE = "displacement", PROCESSOR = "isce",
provided no global parameter key collides with these tag keys (global
parameters are merged last and would overwrite them). -/
theorem C7_fixed_tags (fileMeta : List (String × MetaVal)) (mh : Option ℝ)
    (mDict : List (String × ℝ))
    (h : ∀ p ∈ mDict, p.1 ≠ "UNIT" ∧ p.1 ≠ "FILE_TYPE" ∧ p.1 ≠ "PROCESSOR") :
    dictGet (mergeMeta fileMeta mh mDict) "UNIT" = some (MetaVal.str "m")
    ∧ dictGet (mergeMeta fileMeta mh mDict) "FILE_TYPE" = some (MetaVal.str "displacement")
    ∧ dictGet (mergeMeta fileMeta mh mDict) "PROCESSOR" = some (MetaVal.str "isce") := by
  have hU : ∀ p ∈ mDict, p.1 ≠ "UNIT" := fun p hp => (h p hp).1
  have hF : ∀ p ∈ mDict, p.1 ≠ "FILE_TYPE" := fun p hp => (h p hp).2.1
  have hP : ∀ p ∈ mDict, p.1 ≠ "PROCESSOR" := fun p hp => (h p hp).2.2
  cases mh with
  | none =>
    simp only [mergeMeta]
    refine ⟨?_, ?_, ?_⟩
    · rw [numFold_get_not_mem _ _ _ hU,
          dictGet_insert_ne _ _ _ _ (by decide),
          dictGet_insert_ne _ _ _ _ (by decide),
          dictGet_insert_self]
    · rw [numFold_get_not_mem _ _ _ hF,
          dictGet_insert_ne _ _ _ _ (by decide),
          dictGet_insert_self]
    · rw [numFold_get_not_mem _ _ _ hP, dictGet_insert_self]
  | some h0 =>
    simp only [mergeMeta]
    refine ⟨?_, ?_, ?_⟩
    · rw [numFold_get_not_mem _ _ _ hU,
          dictGet_insert_ne _ _ _ _ (by decide),
          dictGet_insert_ne _ _ _ _ (by decide),
          dictGet_insert_ne _ _ _ _ (by decide),
          dictGet_insert_self]
    · rw [numFold_get_not_mem _ _ _ hF,
          dictGet_insert_ne _ _ _ _ (by decide),
          dictGet_insert_ne _ _ _ _ (by decide),
          dictGet_insert_self]
    · rw [numFold_get_not_mem _ _ _ hP,
          dictGet_insert_ne _ _ _ _ (by decide),
          dictGet_insert_self]

/-- Witness for C7 (amended) on an empty global parameter dict. -/
theorem C7_fixed_tags_witness :
    dictGet (mergeMeta [] none []) "FILE_TYPE" = some (MetaVal.str "displacement") :=
  (C7_fixed_tags [] none [] (by simp)).2.1

/-- Claim C8: a successful run returns one output identifier per image record,
in input order, each named from the record's display name as
`<outDir>/<name>.h5`; the parsed output-name override is never consulted, so
two runs differing only in it return the same value. -/
theorem C8_output_names (fwd : ℝ → ℝ → ℝ → ℝ → ℝ × ℝ) (input : GbisInput)
    (o1 o2 : Option String) (display : Bool) :
    mainRun fwd input o1 display = mainRun fwd input o2 display
    ∧ ∀ recs : List OutputRecord, gbis_mat2hdf5 fwd input display = Except.ok recs →
        recs.map (fun r => r.outFile)
          = input.plots.map (fun p => input.outDir ++ "/" ++ p.name ++ ".h5") := by
  refine ⟨rfl, ?_⟩
  intro recs h
  unfold gbis_mat2hdf5 at h
  cases hg : buildGlobalDict fwd input.refLon input.refLat input.parName input.optimalModel with
  | error e => rw [hg] at h; exact Except.noConfusion h
  | ok mD => rw [hg] at h; exact processAll_outFiles _ _ _ _ h

/-- Witness for C8 on a one-record input. -/
theorem C8_output_names_witness :
    [({ outFile := "d/A.h5", data := [[some 1]], model := [[some 1]], residual := [[some 1]],
        meta := mergeMeta [] none [("M_x", 3), ("M_y", 4), ("M_latitude", 0), ("M_longitude", 0)] }
      : OutputRecord)].map (fun r => r.outFile)
    = [({ name := "A", dataVals := [1], modelVals := [1], residualVals := [1], minHeight := none,
          mask := [[1]], fileMeta := [] } : InsarPlot)].map
        (fun p => "d" ++ "/" ++ p.name ++ ".h5") :=
  (C8_output_names (fun _ _ _ _ => (0, 0))
    { outDir := "d", optimalModel := [3, 4], parName := ["M x", "M y"], refLon := 0, refLat := 0,
      plots := [{ name := "A", dataVals := [1], modelVals := [1], residualVals := [1],
                  minHeight := none, mask := [[1]], fileMeta := [] }] }
    none (some "override") true).2
    [{ outFile := "d/A.h5", data := [[some 1]], model := [[some 1]], residual := [[some 1]],
       meta := mergeMeta [] none [("M_x", 3), ("M_y", 4), ("M_latitude", 0), ("M_longitude", 0)] }]
    rfl

/-- Claim C9: the conversion is deterministic — two runs on identical inputs
return identical output grids and metadata (the embedding is a pure function
of its input; the script consults no randomness, time or environment when
computing grids and metadata). -/
theorem C9_deterministic (fwd : ℝ → ℝ → ℝ → ℝ → ℝ × ℝ) (input : GbisInput) (display : Bool)
    (r1 r2 : Except String (List OutputRecord))
    (h1 : r1 = gbis_mat2hdf5 fwd input display)
    (h2 : r2 = gbis_mat2hdf5 fwd input display) : r1 = r2 := by
  rw [h1, h2]

/-- Witness for C9: two runs on one concrete input. -/
theorem C9_deterministic_witness :
    gbis_mat2hdf5 (fun lon lat _ _ => (lon, lat))
      { outDir := "d", optimalModel := [3, 4], parName := ["M x", "M y"], refLon := 0, refLat := 0,
        plots := [] } true
    = gbis_mat2hdf5 (fun lon lat _ _ => (lon, lat))
      { outDir := "d", optimalModel := [3, 4], parName := ["M x", "M y"], refLon := 0, refLat := 0,
        plots := [] } true :=
  C9_deterministic _ _ _ _ _ rfl rfl

theorem azimuthNp_pos (mx : ℝ) (hmx : 0 < mx) : azimuthNp mx 0 = NpFloat.finite 90 := by
  unfold azimuthNp npDivFin
  rw [if_pos rfl, if_pos hmx]
  unfold npArctan npScaleDeg
  have hπ : Real.pi ≠ 0 := Real.pi_ne_zero
  field_simp
  ring

theorem azimuthNp_neg (mx : ℝ) (hmx : mx < 0) : azimuthNp mx 0 = NpFloat.finite (-90) := by
  unfold azimuthNp npDivFin
  rw [if_pos rfl, if_neg (not_lt.mpr hmx.le), if_pos hmx]
  unfold npArctan npScaleDeg
  have hπ : Real.pi ≠ 0 := Real.pi_ne_zero
  field_simp
  ring

/-- Claim C10 (counterexample): the claim says that, for my = 0, the derived
location keys are produced from a non-finite azimuth.  At mx = 1, my = 0 the
division is non-finite (+inf) but the azimuth `arctan(inf) * 180 / pi` is the
finite value 90. -/
theorem C10_counterexample :
    azimuthNp 1 0 = NpFloat.finite 90 ∧ NpFloat.isFinite (azimuthNp 1 0) = true := by
  have h := azimuthNp_pos 1 one_pos
  exact ⟨h, by rw [h]; rfl⟩

/-- Claim C10 (amended): for my = 0 the code divides mx by my with no guard;
the division itself is non-finite (±inf, or NaN when mx = 0), the resulting
azimuth is the finite value 90 for mx > 0 and -90 for mx < 0 (NaN only when
mx = 0), and — whenever the first parameter name holds a whitespace-delimited
token, the case in which `parName[0].split()[0]` does not already raise
`IndexError` regardless of my — the derived latitude/longitude keys are
still produced without the operation failing. -/
theorem C10_div_by_zero (mx : ℝ) :
    NpFloat.isFinite (npDivFin mx 0) = false
    ∧ (0 < mx → azimuthNp mx 0 = NpFloat.finite 90)
    ∧ (mx < 0 → azimuthNp mx 0 = NpFloat.finite (-90))
    ∧ (mx = 0 → azimuthNp mx 0 = NpFloat.nan)
    ∧ ∀ (fwd : ℝ → ℝ → ℝ → ℝ → ℝ × ℝ) (rlo rla : ℝ) (pn0 pn1 : String)
        (modelName : String) (rest : List String),
        splitTokens pn0 = modelName :: rest →
        ∃ gd, buildGlobalDict fwd rlo rla [pn0, pn1] [mx, 0] = Except.ok gd
          ∧ (dictGet gd (modelName ++ "_latitude")).isSome = true
          ∧ (dictGet gd (modelName ++ "_longitude")).isSome = true := by
  refine ⟨?_, azimuthNp_pos mx, azimuthNp_neg mx, ?_, ?_⟩
  · unfold npDivFin
    rw [if_pos rfl]
    split_ifs <;> rfl
  · intro hmx
    subst hmx
    unfold azimuthNp npDivFin
    rw [if_pos rfl, if_neg (lt_irrefl 0), if_neg (lt_irrefl 0)]
    rfl
  · intro fwd rlo rla pn0 pn1 modelName rest hsplit
    have hbm : buildMDict [pn0, pn1] [mx, 0]
        = Except.ok (dictInsert (dictInsert [] (normKey pn0) mx) (normKey pn1) 0) := rfl
    unfold buildGlobalDict
    simp only [hbm, hsplit]
    refine ⟨_, rfl, ?_, ?_⟩
    · exact dictGet_insert_isSome _ _ _ _ (by rw [dictGet_insert_self]; rfl)
    · rw [dictGet_insert_self]; rfl

/-- Witness for C10 (amended) at mx = 1, with a first parameter name whose
first token is M, exercising the keys-produced conjunct. -/
theorem C10_div_by_zero_witness :
    NpFloat.isFinite (npDivFin 1 0) = false ∧ azimuthNp 1 0 = NpFloat.finite 90
    ∧ ∃ gd, buildGlobalDict (fun lon lat _ _ => (lon, lat)) 0 0 ["M x", "M y"] [1, 0]
          = Except.ok gd
        ∧ (dictGet gd ("M" ++ "_latitude")).isSome = true
        ∧ (dictGet gd ("M" ++ "_longitude")).isSome = true :=
  ⟨(C10_div_by_zero 1).1, (C10_div_by_zero 1).2.1 one_pos,
   (C10_div_by_zero 1).2.2.2.2 (fun lon lat _ _ => (lon, lat)) 0 0 "M x" "M y" "M" ["x"] rfl⟩
